import Mathlib

/-
Shallow embedding of the verification subsystem of the FlipperBot repository:
`auth_manager.py` (OAuth/OTP pending registries, callback handlers, role
mutation) and `keep_alive.py` (the `/callback` HTTP endpoint with its rate
limiting and routing).  Dictionaries are modelled as association lists,
wall-clock times as rationals, and the two effectful externals whose innards
the claims do not depend on — base64+JSON decoding of a JWT payload and the
Microsoft Graph profile lookup — as function parameters returning `Option`
(`none` models the Python exception / failure path).
-/

/-- Python truthiness of an optional string: `None` and `""` are falsy. -/
def pyTruthyStr (o : Option String) : Bool :=
  match o with
  | none => false
  | some s => !(s == "")

/-- A decoded JSON object, as an association list of string fields. -/
abbrev JsonObj := List (String × String)

/-- Python `d.get(key, default)` on a decoded JSON object. -/
def getStr (d : JsonObj) (key default : String) : String :=
  (d.lookup key).getD default

/-- The parsed JSON body returned by the provider token endpoint
(`requests.post(token_url, data=token_data).json()` in the source).
`error = some _` models `"error" in result`. -/
structure TokenJson where
  error : Option String
  error_description : Option String
  access_token : Option String
  id_token : Option String

/-- Python `str.split('.')` on a list of characters (structurally recursive so
that it evaluates inside the kernel). `[] ↦ [[]]` matches `''.split('.') == ['']`. -/
def splitOnChar (c : Char) : List Char → List (List Char)
  | [] => [[]]
  | x :: xs =>
    let r := splitOnChar c xs
    if x == c then [] :: r
    else
      match r with
      | [] => [[x]]
      | y :: ys => (x :: y) :: ys

/-- `id_token.split('.')` from the source. -/
def pySplitDot (s : String) : List String :=
  (splitOnChar '.' s.toList).map (fun cs => String.mk cs)

/-- `payload += '=' * ((4 - len(payload) % 4) % 4)` — restore missing base64
padding before decoding the claims segment. -/
def fixPadding (s : String) : String :=
  s ++ String.mk (List.replicate ((4 - s.length % 4) % 4) '=')

/-- A decoder standing for `json.loads(base64.b64decode(payload).decode('utf-8'))`;
`none` models the exception path. -/
abbrev ClaimsDecoder := String → Option JsonObj

/-- A lookup standing for the Microsoft Graph `/me` request with a bearer
token; `none` models the exception path. -/
abbrev GraphLookup := String → Option JsonObj

/-- Identity extraction of `handle_auth_callback` (auth_manager.py lines
111-160): tier 1 decodes the id_token claims segment, tier 2 falls back to the
Graph lookup with the access token, tier 3 falls back to literal placeholders. -/
def extractIdentity (decode : ClaimsDecoder) (graph : GraphLookup)
    (result : TokenJson) : String × String :=
  if pyTruthyStr result.id_token then
    let parts := pySplitDot (result.id_token.getD "")
    if 2 ≤ parts.length then
      match decode (fixPadding ((parts[1]?).getD "")) with
      | some claims =>
        (getStr claims "name" "Unknown User",
         getStr claims "preferred_username" "No email available")
      | none => ("Unknown User", "No email available")
    else ("Unknown User", "No email available")
  else if pyTruthyStr result.access_token then
    match graph (result.access_token.getD "") with
    | some d =>
      (getStr d "displayName" "Unknown User",
       getStr d "userPrincipalName" "No email available")
    | none => ("Unknown User", "No email available")
  else ("Unknown User", "No email available")

/-- Identity extraction of `verify_otp_redirect` (auth_manager.py lines
269-307); same shape but the defaults are the stored nickname/email. -/
def extractOtpIdentity (decode : ClaimsDecoder) (graph : GraphLookup)
    (result : TokenJson) (username0 email0 : String) : String × String :=
  if pyTruthyStr result.id_token then
    let parts := pySplitDot (result.id_token.getD "")
    if 2 ≤ parts.length then
      match decode (fixPadding ((parts[1]?).getD "")) with
      | some claims =>
        (getStr claims "name" username0, getStr claims "preferred_username" email0)
      | none => (username0, email0)
    else (username0, email0)
  else if pyTruthyStr result.access_token then
    match graph (result.access_token.getD "") with
    | some d => (getStr d "displayName" username0, getStr d "userPrincipalName" email0)
    | none => (username0, email0)
  else (username0, email0)

/-- Python `d[k] = v` on an association-list dictionary: replace the value of
an existing key in place, else append. -/
def dictSet {κ α : Type} [BEq κ] (m : List (κ × α)) (k : κ) (v : α) :
    List (κ × α) :=
  if m.any (fun p => p.1 == k) then
    m.map (fun p => match p.1 == k with | true => (k, v) | false => p)
  else m ++ [(k, v)]

/-- Python `d.pop(k, None)`: the looked-up value together with the dictionary
with that key removed. -/
def dictPop {κ α : Type} [BEq κ] (m : List (κ × α)) (k : κ) :
    Option α × List (κ × α) :=
  match m.lookup k with
  | none => (none, m)
  | some v => (some v, m.filter (fun p => !(p.1 == k)))

/-- The `pending_oauth` registry: dictionary from state token to Discord user id. -/
abbrev OAuthRegistry := List (String × Nat)

/-- One `pending_otps` entry as stored by `start_otp_verification`. -/
structure OtpEntry where
  user_id : Nat
  nickname : String
  email : String
  flow_id : String
  created_at : ℚ
deriving DecidableEq

/-- The `pending_otps` registry: dictionary from Discord user id to entry. -/
abbrev OtpRegistry := List (Nat × OtpEntry)

/-- Branch taken by a callback resolution. -/
inductive CallbackStatus where
  | unknownState
  | providerRejected
  | success
deriving DecidableEq

/-- Outcome record of `handle_auth_callback`: the branch taken, the popped
user id, whether the token POST was made, the extracted identity, whether the
admin channel was notified and roles mutated, and the registry afterwards. -/
structure OAuthCallbackResult where
  status : CallbackStatus
  resolvedUser : Option Nat
  exchanged : Bool
  identity : Option (String × String)
  adminNotified : Bool
  rolesUpdated : Option Nat
  pendingOauth : OAuthRegistry

/-- `generate_auth_url` (auth_manager.py lines 48-73) restricted to its
registry effect: the fresh uuid4 state is a parameter; the URL construction
has no effect on the registry. -/
def generate_auth_url (pending : OAuthRegistry) (user_id : Nat)
    (state : String) : OAuthRegistry × String :=
  (dictSet pending state user_id, state)

/-- `handle_auth_callback` (auth_manager.py lines 75-175).  `tokenResp` is
the parsed JSON the provider would return to the token POST; the POST is only
made when the state resolved, which the `exchanged` flag records.  The guard
`if not user_id` rejects both a missing entry and the falsy user id 0. -/
def handle_auth_callback (decode : ClaimsDecoder) (graph : GraphLookup)
    (tokenResp : TokenJson) (pending : OAuthRegistry)
    (code state : String) : OAuthCallbackResult :=
  let popped := dictPop pending state
  if popped.1 = none ∨ popped.1 = some 0 then
    { status := .unknownState, resolvedUser := none, exchanged := false,
      identity := none, adminNotified := false, rolesUpdated := none,
      pendingOauth := popped.2 }
  else
    let uid := popped.1.getD 0
    if tokenResp.error.isSome then
      { status := .providerRejected, resolvedUser := some uid, exchanged := true,
        identity := none, adminNotified := false, rolesUpdated := none,
        pendingOauth := popped.2 }
    else
      { status := .success, resolvedUser := some uid, exchanged := true,
        identity := some (extractIdentity decode graph tokenResp),
        adminNotified := true, rolesUpdated := some uid,
        pendingOauth := popped.2 }

/-- `start_otp_verification` (auth_manager.py lines 177-230) restricted to its
registry effect: the fresh uuid4 flow id and `time.time()` are parameters;
`pending_otps[user_id] = {...}` keys the entry by the user id. -/
def start_otp_verification (pending : OtpRegistry) (user_id : Nat)
    (nickname email flow_id : String) (now : ℚ) : OtpRegistry :=
  dictSet pending user_id
    { user_id := user_id, nickname := nickname, email := email,
      flow_id := flow_id, created_at := now }

/-- Outcome record of `verify_otp_redirect`: the Python return value, the
branch taken, effect flags, and the registry afterwards. -/
structure OtpCallbackResult where
  retval : Bool
  status : CallbackStatus
  exchanged : Bool
  identity : Option (String × String)
  adminNotified : Bool
  rolesUpdated : Option Nat
  pendingOtps : OtpRegistry

/-- The lookup loop of `verify_otp_redirect` (auth_manager.py lines 239-243):
first entry whose `flow_id` equals the state. -/
def findOtpByState (pending : OtpRegistry) (state : String) :
    Option (Nat × OtpEntry) :=
  pending.find? (fun p => p.2.flow_id == state)

/-- `verify_otp_redirect` (auth_manager.py lines 232-327).  Note that the
entry's `created_at` field is never read: there is no TTL / expiry check
anywhere in the function.  On success the entry is deleted
(`del self.pending_otps[user_id]`); on failure it is kept. -/
def verify_otp_redirect (decode : ClaimsDecoder) (graph : GraphLookup)
    (tokenResp : TokenJson) (pending : OtpRegistry)
    (code state : String) : OtpCallbackResult :=
  match findOtpByState pending state with
  | none =>
    { retval := false, status := .unknownState, exchanged := false,
      identity := none, adminNotified := false, rolesUpdated := none,
      pendingOtps := pending }
  | some (uid, data) =>
    if tokenResp.error.isSome then
      { retval := false, status := .providerRejected, exchanged := true,
        identity := none, adminNotified := false, rolesUpdated := none,
        pendingOtps := pending }
    else
      { retval := true, status := .success, exchanged := true,
        identity := some (extractOtpIdentity decode graph tokenResp
          data.nickname data.email),
        adminNotified := true, rolesUpdated := some uid,
        pendingOtps := pending.filter (fun p => !(p.1 == uid)) }

/-- The marker role granted on verification (auth_manager.py line 392). -/
def verifiedRoleName : String := "✅ Verified"

/-- The marker role removed on verification (auth_manager.py line 403). -/
def unverifiedRoleName : String := "❌ Unverified"

/-- One guild as seen by `_update_member_roles`: the guild's role list and the
member's role list (`none` when `guild.get_member(user_id)` finds nobody). -/
structure GuildState where
  roles : List String
  memberRoles : Option (List String)
deriving DecidableEq

/-- The per-guild body of `_update_member_roles` (auth_manager.py lines
384-427): when the member is found, create the verified role if the guild
lacks it, look up (but never create) the unverified role, remove it from the
member when the guild has it, and add the verified role to the member. -/
def updateGuildRoles (g : GuildState) : GuildState :=
  match g.memberRoles with
  | none => g
  | some mr =>
    let roles1 := if verifiedRoleName ∈ g.roles then g.roles
                  else g.roles ++ [verifiedRoleName]
    let mr1 := if unverifiedRoleName ∈ g.roles then
                 mr.filter (fun r => !(r == unverifiedRoleName))
               else mr
    let mr2 := if verifiedRoleName ∈ mr1 then mr1
               else mr1 ++ [verifiedRoleName]
    { roles := roles1, memberRoles := some mr2 }

/-- `_update_member_roles` (auth_manager.py lines 363-435) over the list of
guilds the bot is in. -/
def update_member_roles (guilds : List GuildState) : List GuildState :=
  guilds.map updateGuildRoles

/-- `MAX_CALLBACKS` (keep_alive.py line 18). -/
def MAX_CALLBACKS : Nat := 5

/-- `TIME_WINDOW` in seconds (keep_alive.py line 19). -/
def TIME_WINDOW : ℚ := 120

/-- `MIN_REQUEST_INTERVAL` in seconds (keep_alive.py line 23). -/
def MIN_REQUEST_INTERVAL : ℚ := 1

/-- `apply_global_rate_limit` (keep_alive.py lines 25-34): returns the length
of the `time.sleep` performed (0 when the spacing was already respected) and
the new `last_request_time` (the wall clock after sleeping).  It never
produces an HTTP response. -/
def apply_global_rate_limit (last_request_time current_time : ℚ) : ℚ × ℚ :=
  let time_since_last := current_time - last_request_time
  if time_since_last < MIN_REQUEST_INTERVAL then
    let sleepDur := MIN_REQUEST_INTERVAL - time_since_last + 1/10
    (sleepDur, current_time + sleepDur)
  else (0, current_time)

/-- The per-IP tracker `callback_tracker`: dictionary from client address to
the list of recent request timestamps. -/
abbrev CallbackTracker := List (String × List ℚ)

/-- The coroutine scheduled on the bot loop by the `/callback` handler. -/
inductive Scheduled where
  | otp (code state : String)
  | oauth (code state : String)
deriving DecidableEq

/-- Outcome record of one `/callback` request: HTTP status, error body for
non-200 responses, the coroutine scheduled on the bot loop (if any), the
tracker afterwards, and the two pending registries afterwards. -/
structure HttpResult where
  status : Nat
  errorBody : Option String
  scheduled : Option Scheduled
  tracker : CallbackTracker
  pendingOauth : OAuthRegistry
  pendingOtps : OtpRegistry

/-- `auth_callback` (keep_alive.py lines 49-175).  `ready` models
`auth_manager and bot_loop` being initialized; `code`/`state` are
`request.args.get(...)` results (`none` when the query parameter is missing).
The handler only reads the two pending registries (to route OTP vs OAuth); it
never writes them — resolution is left to the scheduled coroutine. -/
def auth_callback (ready : Bool) (pendingOauth : OAuthRegistry)
    (pendingOtps : OtpRegistry) (tracker : CallbackTracker)
    (ip : String) (current_time : ℚ)
    (code state : Option String) : HttpResult :=
  let prev := (tracker.lookup ip).getD []
  let pruned := prev.filter (fun ts => current_time - ts < TIME_WINDOW)
  if MAX_CALLBACKS ≤ pruned.length then
    { status := 429, errorBody := some "Too many requests. Please try again later.",
      scheduled := none, tracker := dictSet tracker ip pruned,
      pendingOauth := pendingOauth, pendingOtps := pendingOtps }
  else
    let tracker1 := dictSet tracker ip (pruned ++ [current_time])
    if !(pyTruthyStr code) || !(pyTruthyStr state) then
      { status := 400,
        errorBody := some "OAuth callback is missing required parameters (code, state).",
        scheduled := none, tracker := tracker1,
        pendingOauth := pendingOauth, pendingOtps := pendingOtps }
    else if ready then
      let c := code.getD ""
      let s := state.getD ""
      let is_otp := pendingOtps.any (fun p => p.2.flow_id == s)
      { status := 200, errorBody := none,
        scheduled := some (if is_otp then .otp c s else .oauth c s),
        tracker := tracker1,
        pendingOauth := pendingOauth, pendingOtps := pendingOtps }
    else
      { status := 503,
        errorBody := some "Bot is not ready to handle authentication. Please try again in a moment.",
        scheduled := none, tracker := tracker1,
        pendingOauth := pendingOauth, pendingOtps := pendingOtps }

/-- One `/callback` request through the Flask pipeline: the `before_request`
hook runs `apply_global_rate_limit` (sleeping as needed), then `auth_callback`
runs, observing `time.time()` after the sleep.  Returns the sleep length, the
new `last_request_time`, and the handler result. -/
def handle_request (last_request_time : ℚ) (ready : Bool)
    (pendingOauth : OAuthRegistry) (pendingOtps : OtpRegistry)
    (tracker : CallbackTracker) (ip : String) (now : ℚ)
    (code state : Option String) : ℚ × ℚ × HttpResult :=
  let g := apply_global_rate_limit last_request_time now
  (g.1, g.2, auth_callback ready pendingOauth pendingOtps tracker ip (now + g.1) code state)

/-- A concrete claims decoder for the C3 witness: accepts exactly the padded
payload "p===" of the two-segment identity token "h.p". -/
def sampleDecoder : ClaimsDecoder := fun s =>
  if s == "p===" then
    some [("name", "Alice"), ("preferred_username", "alice@example.com")]
  else none

/-- A concrete Graph lookup for the C3 witness (never consulted on tier 1). -/
def sampleGraph : GraphLookup := fun _ => none

/-- A concrete successful token response carrying the identity token "h.p". -/
def sampleIdResp : TokenJson :=
  { error := none
    error_description := none
    access_token := none
    id_token := some "h.p" }

/-! ### Dictionary helper lemmas -/

lemma beq_symm_false {κ : Type} [BEq κ] [LawfulBEq κ] {a b : κ}
    (h : ¬((a == b) = true)) : (b == a) = false := by
  have hne : a ≠ b := fun e => h (by simp [e])
  exact beq_eq_false_iff_ne.mpr (fun e => hne e.symm)

lemma lookup_filter_self_none {κ α : Type} [BEq κ] [LawfulBEq κ]
    (m : List (κ × α)) (k : κ) :
    (m.filter (fun p => !(p.1 == k))).lookup k = none := by
  induction m with
  | nil => rfl
  | cons a t ih =>
    by_cases h : (a.1 == k) = true
    · simp [List.filter_cons, h, ih]
    · simp [List.filter_cons, h, List.lookup, beq_symm_false h, ih]

lemma lookup_dictSet_self {κ α : Type} [BEq κ] [LawfulBEq κ]
    (m : List (κ × α)) (k : κ) (v : α) :
    (dictSet m k v).lookup k = some v := by
  unfold dictSet
  by_cases hany : m.any (fun p => p.1 == k) = true
  · simp only [hany, if_true]
    induction m with
    | nil => simp at hany
    | cons a t ih =>
      by_cases hak : (a.1 == k) = true
      · simp [List.lookup, hak]
      · have hany' : t.any (fun p => p.1 == k) = true := by
          simp [List.any_cons, hak] at hany
          simpa using hany
        simp [List.lookup, hak, beq_symm_false hak]
        exact ih hany'
  · simp only [hany, if_false]
    have hall : ∀ q ∈ m, (q.1 == k) = false := by
      intro q hq
      by_contra hc
      exact hany (List.any_eq_true.mpr ⟨q, hq, by simpa using hc⟩)
    clear hany
    induction m with
    | nil => simp [List.lookup]
    | cons a t ih =>
      have hka : (k == a.1) = false := by
        have h1 := hall a (List.mem_cons_self a t)
        exact beq_symm_false (by simp [h1])
      simp [List.lookup, hka]
      exact ih (fun q hq => hall q (List.mem_cons_of_mem a hq))

lemma mem_dictSet {κ α : Type} [BEq κ] [LawfulBEq κ]
    (m : List (κ × α)) (k : κ) (v : α) (p : κ × α) :
    p ∈ dictSet m k v ↔ p = (k, v) ∨ (p ∈ m ∧ p.1 ≠ k) := by
  unfold dictSet
  by_cases hany : m.any (fun q => q.1 == k) = true
  · rw [if_pos hany]
    constructor
    · intro hp
      obtain ⟨q, hq, hfq⟩ := List.mem_map.mp hp
      by_cases hqk : (q.1 == k) = true
      · left
        simp [hqk] at hfq
        exact hfq.symm
      · right
        rw [Bool.not_eq_true] at hqk
        simp [hqk] at hfq
        subst hfq
        exact ⟨hq, by simpa using hqk⟩
    · rintro (rfl | ⟨hp, hpk⟩)
      · obtain ⟨q, hq, hqk⟩ := List.any_eq_true.mp hany
        refine List.mem_map.mpr ⟨q, hq, ?_⟩
        simp at hqk
        simp [hqk]
      · refine List.mem_map.mpr ⟨p, hp, ?_⟩
        have : (p.1 == k) = false := beq_eq_false_iff_ne.mpr hpk
        simp [this]
  · rw [if_neg hany]
    have hall : ∀ q ∈ m, q.1 ≠ k := by
      intro q hq hc
      exact hany (List.any_eq_true.mpr ⟨q, hq, by simp [hc]⟩)
    rw [List.mem_append, List.mem_singleton]
    constructor
    · rintro (hp | rfl)
      · exact Or.inr ⟨hp, hall p hp⟩
      · exact Or.inl rfl
    · rintro (rfl | ⟨hp, _⟩)
      · exact Or.inr rfl
      · exact Or.inl hp

lemma keys_dictSet_nodup {κ α : Type} [BEq κ] [LawfulBEq κ]
    (m : List (κ × α)) (k : κ) (v : α)
    (h : (m.map Prod.fst).Nodup) : ((dictSet m k v).map Prod.fst).Nodup := by
  unfold dictSet
  by_cases hany : m.any (fun q => q.1 == k) = true
  · rw [if_pos hany]
    have hkeys : (m.map (fun p => match p.1 == k with
        | true => (k, v) | false => p)).map Prod.fst = m.map Prod.fst := by
      rw [List.map_map]
      apply List.map_congr_left
      intro p _
      by_cases hpk : (p.1 == k) = true
      · simp [hpk]
        exact (eq_of_beq hpk).symm
      · rw [Bool.not_eq_true] at hpk
        simp [hpk]
    rw [hkeys]
    exact h
  · rw [if_neg hany]
    have hknotin : k ∉ m.map Prod.fst := by
      intro hk
      obtain ⟨q, hq, hq1⟩ := List.mem_map.mp hk
      exact hany (List.any_eq_true.mpr ⟨q, hq, by simp [hq1]⟩)
    rw [List.map_append]
    exact List.Nodup.append h (List.nodup_singleton k)
      (by simpa [List.disjoint_singleton] using hknotin)

lemma find?_unique {α : Type} (pred : α → Bool) (l : List α) (x : α)
    (hx : x ∈ l) (hpred : pred x = true)
    (huniq : ∀ y ∈ l, pred y = true → y = x) : l.find? pred = some x := by
  induction l with
  | nil => cases hx
  | cons a t ih =>
    by_cases ha : pred a = true
    · have hax : a = x := huniq a (List.mem_cons_self a t) ha
      rw [List.find?_cons_of_pos _ ha, hax]
    · have hxt : x ∈ t := by
        rcases List.mem_cons.mp hx with rfl | h
        · exact absurd hpred ha
        · exact h
      rw [Bool.not_eq_true] at ha
      rw [List.find?_cons_of_neg _ (by simp [ha])]
      exact ih hxt (fun y hy hp => huniq y (List.mem_cons_of_mem a hy) hp)

/-! ### Branch lemmas for the callback resolvers -/

lemma handle_auth_callback_notfound (decode : ClaimsDecoder) (graph : GraphLookup)
    (tokenResp : TokenJson) (pending : OAuthRegistry) (code state : String)
    (hreg : pending.lookup state = none) :
    handle_auth_callback decode graph tokenResp pending code state =
      { status := .unknownState, resolvedUser := none, exchanged := false,
        identity := none, adminNotified := false, rolesUpdated := none,
        pendingOauth := pending } := by
  unfold handle_auth_callback dictPop
  rw [hreg]
  simp

lemma handle_auth_callback_found (decode : ClaimsDecoder) (graph : GraphLookup)
    (tokenResp : TokenJson) (pending : OAuthRegistry) (code state : String)
    (uid : Nat) (hreg : pending.lookup state = some uid) (huid : uid ≠ 0) :
    handle_auth_callback decode graph tokenResp pending code state =
      if tokenResp.error.isSome then
        { status := .providerRejected, resolvedUser := some uid, exchanged := true,
          identity := none, adminNotified := false, rolesUpdated := none,
          pendingOauth := pending.filter (fun p => !(p.1 == state)) }
      else
        { status := .success, resolvedUser := some uid, exchanged := true,
          identity := some (extractIdentity decode graph tokenResp),
          adminNotified := true, rolesUpdated := some uid,
          pendingOauth := pending.filter (fun p => !(p.1 == state)) } := by
  unfold handle_auth_callback dictPop
  rw [hreg]
  simp [huid]

lemma verify_otp_redirect_notfound (decode : ClaimsDecoder) (graph : GraphLookup)
    (tokenResp : TokenJson) (pending : OtpRegistry) (code state : String)
    (hfind : findOtpByState pending state = none) :
    verify_otp_redirect decode graph tokenResp pending code state =
      { retval := false, status := .unknownState, exchanged := false,
        identity := none, adminNotified := false, rolesUpdated := none,
        pendingOtps := pending } := by
  unfold verify_otp_redirect
  rw [hfind]

lemma verify_otp_redirect_found (decode : ClaimsDecoder) (graph : GraphLookup)
    (tokenResp : TokenJson) (pending : OtpRegistry) (code state : String)
    (uid : Nat) (entry : OtpEntry)
    (hfind : findOtpByState pending state = some (uid, entry)) :
    verify_otp_redirect decode graph tokenResp pending code state =
      if tokenResp.error.isSome then
        { retval := false, status := .providerRejected, exchanged := true,
          identity := none, adminNotified := false, rolesUpdated := none,
          pendingOtps := pending }
      else
        { retval := true, status := .success, exchanged := true,
          identity := some (extractOtpIdentity decode graph tokenResp
            entry.nickname entry.email),
          adminNotified := true, rolesUpdated := some uid,
          pendingOtps := pending.filter (fun p => !(p.1 == uid)) } := by
  unfold verify_otp_redirect
  rw [hfind]

/-! ### Claim theorems -/

/-- C1: A state token registered by `generate_auth_url` is resolved to the
originating Discord user id exactly once by `handle_auth_callback`: the first
callback with that state pops the entry from `pending_oauth` (so the state no
longer resolves), and a second callback presenting the same state finds no
pending entry and is rejected without a token exchange, role mutation or
admin notification.  (`uid ≠ 0` reflects that Discord snowflake ids are
nonzero; the source's `if not user_id` guard would treat the id 0 as falsy.) -/
theorem oauth_state_consumed_exactly_once
    (decode : ClaimsDecoder) (graph : GraphLookup) (resp1 resp2 : TokenJson)
    (pending0 : OAuthRegistry) (uid : Nat) (state code1 code2 : String)
    (huid : uid ≠ 0) :
    (handle_auth_callback decode graph resp1
        (generate_auth_url pending0 uid state).1 code1 state).resolvedUser = some uid ∧
    (handle_auth_callback decode graph resp1
        (generate_auth_url pending0 uid state).1 code1 state).pendingOauth.lookup state
      = none ∧
    (handle_auth_callback decode graph resp2
        (handle_auth_callback decode graph resp1
          (generate_auth_url pending0 uid state).1 code1 state).pendingOauth
        code2 state) =
      { status := .unknownState, resolvedUser := none, exchanged := false,
        identity := none, adminNotified := false, rolesUpdated := none,
        pendingOauth := (handle_auth_callback decode graph resp1
          (generate_auth_url pending0 uid state).1 code1 state).pendingOauth } := by
  have hreg : (generate_auth_url pending0 uid state).1.lookup state = some uid :=
    lookup_dictSet_self pending0 state uid
  have h1 := handle_auth_callback_found decode graph resp1
    (generate_auth_url pending0 uid state).1 code1 state uid hreg huid
  have hfilterlookup :
      ((generate_auth_url pending0 uid state).1.filter
        (fun p => !(p.1 == state))).lookup state = none :=
    lookup_filter_self_none _ state
  have hpend : (handle_auth_callback decode graph resp1
      (generate_auth_url pending0 uid state).1 code1 state).pendingOauth =
      (generate_auth_url pending0 uid state).1.filter (fun p => !(p.1 == state)) := by
    rw [h1]
    by_cases he : resp1.error.isSome <;> simp [he]
  have hres : (handle_auth_callback decode graph resp1
      (generate_auth_url pending0 uid state).1 code1 state).resolvedUser = some uid := by
    rw [h1]
    by_cases he : resp1.error.isSome <;> simp [he]
  refine ⟨hres, ?_, ?_⟩
  · rw [hpend]
    exact hfilterlookup
  · exact handle_auth_callback_notfound decode graph resp2 _ code2 state
      (by rw [hpend]; exact hfilterlookup)

/-- C1 witness: a concrete run with user id 42 and state token "T". -/
theorem oauth_state_consumed_exactly_once_witness :
    (handle_auth_callback (fun _ => none) (fun _ => none)
        { error := none, error_description := none,
          access_token := none, id_token := none }
        (generate_auth_url [] 42 "T").1 "abc" "T").resolvedUser = some 42 ∧
    (handle_auth_callback (fun _ => none) (fun _ => none)
        { error := none, error_description := none,
          access_token := none, id_token := none }
        (generate_auth_url [] 42 "T").1 "abc" "T").pendingOauth.lookup "T" = none := by
  have h := oauth_state_consumed_exactly_once (fun _ => none) (fun _ => none)
    { error := none, error_description := none,
      access_token := none, id_token := none }
    { error := none, error_description := none,
      access_token := none, id_token := none }
    [] 42 "T" "abc" "abc" (by decide)
  exact ⟨h.1, h.2.1⟩

/-- C2 (refuting the claim; the code is the defect): `verify_otp_redirect`
never reads the pending entry's `created_at` field and consults no clock, so a
pending OTP flow resolves successfully — token exchange, role mutation and
admin notification all happen — no matter how much time has elapsed since
`start_otp_verification` stored the entry.  The resolution wall-clock time
`now` below does not occur in the program expression at all: even under the
hypothesis that more than 600 seconds (10 minutes) have passed, the resolution
returns `True` rather than the failure value the claim requires. -/
theorem otp_ttl_ignored
    (decode : ClaimsDecoder) (graph : GraphLookup) (resp : TokenJson)
    (herr : resp.error = none) (pending : OtpRegistry) (uid : Nat)
    (entry : OtpEntry) (code : String) (now : ℚ)
    (hfind : findOtpByState pending entry.flow_id = some (uid, entry))
    (hexpired : entry.created_at + 600 < now) :
    (verify_otp_redirect decode graph resp pending code entry.flow_id).retval = true ∧
    (verify_otp_redirect decode graph resp pending code entry.flow_id).rolesUpdated
      = some uid ∧
    (verify_otp_redirect decode graph resp pending code entry.flow_id).adminNotified
      = true := by
  have h := verify_otp_redirect_found decode graph resp pending code entry.flow_id
    uid entry hfind
  rw [herr] at h
  simp at h
  rw [h]
  exact ⟨rfl, rfl, rfl⟩

/-- C2 witness: an entry created at time 0 still resolves at time 601 s
(past the 10-minute TTL the specification requires). -/
theorem otp_ttl_ignored_witness :
    (verify_otp_redirect (fun _ => none) (fun _ => none)
      { error := none, error_description := none,
        access_token := none, id_token := none }
      [(7, { user_id := 7, nickname := "Bob", email := "bob@example.com",
             flow_id := "F", created_at := 0 })] "abc" "F").retval = true := by
  have h := otp_ttl_ignored (fun _ => none) (fun _ => none)
    { error := none, error_description := none,
      access_token := none, id_token := none }
    rfl
    [(7, { user_id := 7, nickname := "Bob", email := "bob@example.com",
           flow_id := "F", created_at := 0 })]
    7
    { user_id := 7, nickname := "Bob", email := "bob@example.com",
      flow_id := "F", created_at := 0 }
    "abc" 601 (by decide) (by norm_num)
  exact h.1

/-- C4: when the token-endpoint JSON body contains an "error" field, both
`handle_auth_callback` (on a resolvable state) and `verify_otp_redirect` (on a
matching flow) terminate in the provider-rejected outcome — a plain return,
not an exception (the embedding is a total function) — with no role mutation
and no admin notification for that attempt. -/
theorem provider_error_rejected_no_mutation
    (decode : ClaimsDecoder) (graph : GraphLookup) (resp : TokenJson)
    (herr : resp.error.isSome = true)
    (pendingO : OAuthRegistry) (uid : Nat) (state code : String)
    (hreg : pendingO.lookup state = some uid) (huid : uid ≠ 0)
    (pendingT : OtpRegistry) (uidT : Nat) (entry : OtpEntry) (stateT codeT : String)
    (hfind : findOtpByState pendingT stateT = some (uidT, entry)) :
    ((handle_auth_callback decode graph resp pendingO code state).status
        = .providerRejected ∧
      (handle_auth_callback decode graph resp pendingO code state).rolesUpdated = none ∧
      (handle_auth_callback decode graph resp pendingO code state).adminNotified
        = false) ∧
    ((verify_otp_redirect decode graph resp pendingT codeT stateT).retval = false ∧
      (verify_otp_redirect decode graph resp pendingT codeT stateT).status
        = .providerRejected ∧
      (verify_otp_redirect decode graph resp pendingT codeT stateT).rolesUpdated
        = none ∧
      (verify_otp_redirect decode graph resp pendingT codeT stateT).adminNotified
        = false) := by
  have h1 := handle_auth_callback_found decode graph resp pendingO code state uid
    hreg huid
  have h2 := verify_otp_redirect_found decode graph resp pendingT codeT stateT
    uidT entry hfind
  rw [if_pos herr] at h1 h2
  rw [h1, h2]
  exact ⟨⟨rfl, rfl, rfl⟩, rfl, rfl, rfl, rfl⟩

/-- C4 witness: a provider response `{"error": "invalid_grant"}` against a
registered OAuth state "T" (user 42) and a pending OTP flow "F" (user 7). -/
theorem provider_error_rejected_no_mutation_witness :
    (handle_auth_callback (fun _ => none) (fun _ => none)
        { error := some "invalid_grant",
          error_description := some "the provided grant is invalid",
          access_token := none, id_token := none }
        [("T", 42)] "abc" "T").status = CallbackStatus.providerRejected ∧
    (verify_otp_redirect (fun _ => none) (fun _ => none)
        { error := some "invalid_grant",
          error_description := some "the provided grant is invalid",
          access_token := none, id_token := none }
        [(7, { user_id := 7, nickname := "Bob", email := "bob@example.com",
               flow_id := "F", created_at := 0 })] "abc" "F").retval = false := by
  have h := provider_error_rejected_no_mutation (fun _ => none) (fun _ => none)
    { error := some "invalid_grant",
      error_description := some "the provided grant is invalid",
      access_token := none, id_token := none }
    rfl [("T", 42)] 42 "T" "abc" rfl (by decide)
    [(7, { user_id := 7, nickname := "Bob", email := "bob@example.com",
           flow_id := "F", created_at := 0 })]
    7
    { user_id := 7, nickname := "Bob", email := "bob@example.com",
      flow_id := "F", created_at := 0 }
    "F" "abc" (by decide)
  exact ⟨h.1.1, h.2.1⟩

/-- C3: on a successful token-endpoint response, identity resolution follows
the three-tier fallback of `handle_auth_callback`: (1) a truthy id_token whose
claims segment (split on '.', base64 padding restored by `fixPadding`)
decodes yields the "name" / "preferred_username" claims (with the literal
placeholders as `get` defaults); (2) with no truthy id_token but a truthy
access token, the Graph profile lookup yields "displayName" /
"userPrincipalName"; (3) in every remaining case — no tokens, too few token
segments, a failing decode, or a failing Graph call — the result is exactly
("Unknown User", "No email available").  The last conjunct ties this to
`handle_auth_callback`: its success branch reports exactly this identity. -/
theorem identity_three_tier_fallback
    (decode : ClaimsDecoder) (graph : GraphLookup) (resp : TokenJson) :
    (∀ t claims, resp.id_token = some t → t ≠ "" →
      2 ≤ (pySplitDot t).length →
      decode (fixPadding (((pySplitDot t))[1]?.getD "")) = some claims →
      extractIdentity decode graph resp =
        (getStr claims "name" "Unknown User",
         getStr claims "preferred_username" "No email available")) ∧
    (∀ a profile, pyTruthyStr resp.id_token = false →
      resp.access_token = some a → a ≠ "" → graph a = some profile →
      extractIdentity decode graph resp =
        (getStr profile "displayName" "Unknown User",
         getStr profile "userPrincipalName" "No email available")) ∧
    (((pyTruthyStr resp.id_token = false ∧ pyTruthyStr resp.access_token = false) ∨
      (∃ t, resp.id_token = some t ∧ t ≠ "" ∧ (pySplitDot t).length < 2) ∨
      (∃ t, resp.id_token = some t ∧ t ≠ "" ∧ 2 ≤ (pySplitDot t).length ∧
        decode (fixPadding (((pySplitDot t))[1]?.getD "")) = none) ∨
      (∃ a, pyTruthyStr resp.id_token = false ∧ resp.access_token = some a ∧
        a ≠ "" ∧ graph a = none)) →
      extractIdentity decode graph resp = ("Unknown User", "No email available")) ∧
    (∀ (pending : OAuthRegistry) (uid : Nat) (code state : String),
      pending.lookup state = some uid → uid ≠ 0 → resp.error = none →
      (handle_auth_callback decode graph resp pending code state).identity =
        some (extractIdentity decode graph resp)) := by
  refine ⟨?_, ?_, ?_, ?_⟩
  · intro t claims hid hne hlen hdec
    have htr : pyTruthyStr (some t) = true := by simp [pyTruthyStr, hne]
    simp [extractIdentity, hid, htr, hlen, hdec]
  · intro a profile hid ha hane hg
    have hatr : pyTruthyStr (some a) = true := by simp [pyTruthyStr, hane]
    simp [extractIdentity, hid, ha, hatr, hg]
  · rintro (⟨hid, hacc⟩ | ⟨t, hid, hne, hlen⟩ | ⟨t, hid, hne, hlen, hdec⟩ |
      ⟨a, hid, ha, hane, hg⟩)
    · simp [extractIdentity, hid, hacc]
    · have htr : pyTruthyStr (some t) = true := by simp [pyTruthyStr, hne]
      simp [extractIdentity, htr, hid, Nat.not_le_of_lt hlen]
    · have htr : pyTruthyStr (some t) = true := by simp [pyTruthyStr, hne]
      simp [extractIdentity, htr, hid, hlen, hdec]
    · have hatr : pyTruthyStr (some a) = true := by simp [pyTruthyStr, hane]
      simp [extractIdentity, hid, ha, hatr, hg]
  · intro pending uid code state hreg huid herr
    have h := handle_auth_callback_found decode graph resp pending code state uid
      hreg huid
    rw [herr] at h
    simp at h
    rw [h]

/-- C3 witness: tier 1 at a concrete decodable identity token. -/
theorem identity_three_tier_fallback_witness :
    extractIdentity sampleDecoder sampleGraph sampleIdResp =
      ("Alice", "alice@example.com") := by
  have h := (identity_three_tier_fallback sampleDecoder sampleGraph sampleIdResp).1
    "h.p" [("name", "Alice"), ("preferred_username", "alice@example.com")]
    rfl (by decide) (by decide) (by decide)
  rw [h]
  decide

/-! ### Role mutation lemmas -/

lemma unverified_filter_keeps_verified :
    (!(verifiedRoleName == unverifiedRoleName)) = true := by decide

lemma filter_unverified_idem (l : List String) :
    (l.filter (fun r => !(r == unverifiedRoleName))).filter
        (fun r => !(r == unverifiedRoleName)) =
      l.filter (fun r => !(r == unverifiedRoleName)) := by
  rw [List.filter_filter]
  simp

lemma updateGuildRoles_none (g : GuildState) (h : g.memberRoles = none) :
    updateGuildRoles g = g := by
  unfold updateGuildRoles
  rw [h]

lemma updateGuildRoles_some (roles mr : List String) :
    updateGuildRoles { roles := roles, memberRoles := some mr } =
      { roles := if verifiedRoleName ∈ roles then roles
                 else roles ++ [verifiedRoleName]
        memberRoles := some
          (let mr1 := if unverifiedRoleName ∈ roles then
                        mr.filter (fun r => !(r == unverifiedRoleName))
                      else mr
           if verifiedRoleName ∈ mr1 then mr1 else mr1 ++ [verifiedRoleName]) } :=
  rfl

lemma mem_append_verified (l : List String) :
    verifiedRoleName ∈ l ++ [verifiedRoleName] :=
  List.mem_append_right _ (List.mem_singleton.mpr rfl)

lemma filter_unverified_append_verified (l : List String) :
    ((l.filter (fun r => !(r == unverifiedRoleName))) ++ [verifiedRoleName]).filter
        (fun r => !(r == unverifiedRoleName)) =
      (l.filter (fun r => !(r == unverifiedRoleName))) ++ [verifiedRoleName] := by
  rw [List.filter_append, filter_unverified_idem]
  simp [unverified_filter_keeps_verified]

lemma updateGuildRoles_idem (g : GuildState) :
    updateGuildRoles (updateGuildRoles g) = updateGuildRoles g := by
  obtain ⟨roles, mro⟩ := g
  cases mro with
  | none => rfl
  | some mr =>
    rw [updateGuildRoles_some]
    by_cases hu : unverifiedRoleName ∈ roles
    · by_cases hv : verifiedRoleName ∈ roles
      · simp only [hu, hv, if_true]
        by_cases hmv : verifiedRoleName ∈ mr.filter (fun r => !(r == unverifiedRoleName))
        · simp only [hmv, if_true]
          rw [updateGuildRoles_some]
          simp only [hv, hu, if_true, filter_unverified_idem, hmv]
        · simp only [hmv, if_false]
          rw [updateGuildRoles_some]
          simp only [hv, hu, if_true, filter_unverified_append_verified,
            mem_append_verified]
      · simp only [hu, hv, if_true, if_false]
        have hu1 : unverifiedRoleName ∈ roles ++ [verifiedRoleName] :=
          List.mem_append_left _ hu
        by_cases hmv : verifiedRoleName ∈ mr.filter (fun r => !(r == unverifiedRoleName))
        · simp only [hmv, if_true]
          rw [updateGuildRoles_some]
          simp only [mem_append_verified, hu1, if_true, filter_unverified_idem, hmv]
        · simp only [hmv, if_false]
          rw [updateGuildRoles_some]
          simp only [mem_append_verified, hu1, if_true,
            filter_unverified_append_verified]
    · by_cases hv : verifiedRoleName ∈ roles
      · simp only [hu, hv, if_true, if_false]
        by_cases hmv : verifiedRoleName ∈ mr
        · simp only [hmv, if_true]
          rw [updateGuildRoles_some]
          simp only [hv, hu, if_true, if_false, hmv]
        · simp only [hmv, if_false]
          rw [updateGuildRoles_some]
          simp only [hv, hu, if_true, if_false, mem_append_verified]
      · simp only [hu, hv, if_false]
        have hu1 : unverifiedRoleName ∉ roles ++ [verifiedRoleName] := by
          intro hc
          rcases List.mem_append.mp hc with h | h
          · exact hu h
          · exact absurd (List.mem_singleton.mp h) (by decide)
        by_cases hmv : verifiedRoleName ∈ mr
        · simp only [hmv, if_true]
          rw [updateGuildRoles_some]
          simp only [mem_append_verified, hu1, if_true, if_false, hmv]
        · simp only [hmv, if_false]
          rw [updateGuildRoles_some]
          simp only [mem_append_verified, hu1, if_true, if_false]

/-- C5: role mutation is idempotent — running `_update_member_roles` twice
over any guild list yields exactly the same final state as running it once;
moreover in any guild where the member is found (and the member's roles are,
as Discord guarantees, among the guild's roles) the final member role set
contains the verified role and not the unverified role. -/
theorem role_update_idempotent :
    (∀ guilds : List GuildState,
      update_member_roles (update_member_roles guilds) = update_member_roles guilds) ∧
    (∀ (g : GuildState) (mr : List String), g.memberRoles = some mr →
      (∀ r ∈ mr, r ∈ g.roles) →
      ∃ mr', (updateGuildRoles g).memberRoles = some mr' ∧
        verifiedRoleName ∈ mr' ∧ unverifiedRoleName ∉ mr') := by
  constructor
  · intro guilds
    unfold update_member_roles
    rw [List.map_map]
    exact List.map_congr_left (fun g _ => updateGuildRoles_idem g)
  · intro g mr hm hsub
    obtain ⟨roles, mro⟩ := g
    simp only at hm
    subst hm
    simp only at hsub
    rw [updateGuildRoles_some]
    by_cases hu : unverifiedRoleName ∈ roles
    · simp only [hu, if_true]
      have h1 : unverifiedRoleName ∉ mr.filter (fun r => !(r == unverifiedRoleName)) := by
        intro hc
        have h2 := (List.mem_filter.mp hc).2
        simp at h2
      by_cases hmv : verifiedRoleName ∈ mr.filter (fun r => !(r == unverifiedRoleName))
      · simp only [hmv, if_true]
        exact ⟨_, rfl, hmv, h1⟩
      · simp only [hmv, if_false]
        refine ⟨_, rfl, mem_append_verified _, ?_⟩
        intro hc
        rcases List.mem_append.mp hc with h | h
        · exact h1 h
        · exact absurd (List.mem_singleton.mp h) (by decide)
    · simp only [hu, if_false]
      have h1 : unverifiedRoleName ∉ mr := fun hc => hu (hsub _ hc)
      by_cases hmv : verifiedRoleName ∈ mr
      · simp only [hmv, if_true]
        exact ⟨_, rfl, hmv, h1⟩
      · simp only [hmv, if_false]
        refine ⟨_, rfl, mem_append_verified _, ?_⟩
        intro hc
        rcases List.mem_append.mp hc with h | h
        · exact h1 h
        · exact absurd (List.mem_singleton.mp h) (by decide)

/-- C5 witness: one guild holding the unverified role, member present and
unverified. -/
theorem role_update_idempotent_witness :
    update_member_roles (update_member_roles
        [{ roles := [unverifiedRoleName], memberRoles := some [unverifiedRoleName] }]) =
      update_member_roles
        [{ roles := [unverifiedRoleName], memberRoles := some [unverifiedRoleName] }] ∧
    ∃ mr', (updateGuildRoles
        { roles := [unverifiedRoleName],
          memberRoles := some [unverifiedRoleName] }).memberRoles = some mr' ∧
      verifiedRoleName ∈ mr' ∧ unverifiedRoleName ∉ mr' :=
  ⟨role_update_idempotent.1 _,
   role_update_idempotent.2 _ [unverifiedRoleName] rfl (by decide)⟩

/-- C6 counterexample: in a guild that has neither marker role and where the
member is found, `_update_member_roles` creates only the verified role — the
"❌ Unverified" role is looked up but never created, so after the mutation the
guild still lacks it, refuting the claim that both marker roles are lazily
provisioned. -/
theorem unverified_role_not_created_cex :
    (updateGuildRoles { roles := [], memberRoles := some [] }).roles
      = [verifiedRoleName] ∧
    unverifiedRoleName ∉ (updateGuildRoles { roles := [], memberRoles := some [] }).roles := by
  decide

/-- C6 amended: for every guild in which the member is found, the role mutator
lazily provisions only the "✅ Verified" role (appending it when absent,
leaving the role list unchanged when present); the "❌ Unverified" role is
never created — it is present afterwards exactly when it was present before. -/
theorem lazy_provisioning_amended (g : GuildState) (mr : List String)
    (hm : g.memberRoles = some mr) :
    verifiedRoleName ∈ (updateGuildRoles g).roles ∧
    ((updateGuildRoles g).roles = g.roles ∨
      (updateGuildRoles g).roles = g.roles ++ [verifiedRoleName]) ∧
    (unverifiedRoleName ∈ (updateGuildRoles g).roles ↔
      unverifiedRoleName ∈ g.roles) := by
  obtain ⟨roles, mro⟩ := g
  simp only at hm
  subst hm
  rw [updateGuildRoles_some]
  by_cases hv : verifiedRoleName ∈ roles
  · simp [hv]
  · rw [if_neg hv]
    refine ⟨mem_append_verified _, Or.inr rfl, ?_⟩
    constructor
    · intro hc
      rcases List.mem_append.mp hc with h | h
      · exact h
      · exact absurd (List.mem_singleton.mp h) (by decide)
    · exact fun h => List.mem_append_left _ h

/-- C6 amended witness: the empty guild with the member present. -/
theorem lazy_provisioning_amended_witness :
    verifiedRoleName ∈ (updateGuildRoles { roles := [], memberRoles := some [] }).roles ∧
    ((updateGuildRoles { roles := [], memberRoles := some [] }).roles = [] ∨
      (updateGuildRoles { roles := [], memberRoles := some [] }).roles
        = [] ++ [verifiedRoleName]) ∧
    (unverifiedRoleName ∈ (updateGuildRoles { roles := [], memberRoles := some [] }).roles ↔
      unverifiedRoleName ∈ ([] : List String)) :=
  lazy_provisioning_amended { roles := [], memberRoles := some [] } [] rfl

/-- C7: a `/callback` request that is not per-address rate limited and lacks
the `code` or the `state` query parameter gets HTTP 400 with the
human-readable error body, and nothing is scheduled on the bot loop (no
pending-flow resolution, no token exchange); both pending registries are
untouched. -/
theorem callback_missing_params_400
    (ready : Bool) (po : OAuthRegistry) (pot : OtpRegistry)
    (tracker : CallbackTracker) (ip : String) (now : ℚ)
    (code state : Option String)
    (hrate : (((tracker.lookup ip).getD []).filter
      (fun ts => now - ts < TIME_WINDOW)).length < MAX_CALLBACKS)
    (hmiss : code = none ∨ state = none) :
    (auth_callback ready po pot tracker ip now code state).status = 400 ∧
    (auth_callback ready po pot tracker ip now code state).errorBody =
      some "OAuth callback is missing required parameters (code, state)." ∧
    (auth_callback ready po pot tracker ip now code state).scheduled = none ∧
    (auth_callback ready po pot tracker ip now code state).pendingOauth = po ∧
    (auth_callback ready po pot tracker ip now code state).pendingOtps = pot := by
  have hcond : (!(pyTruthyStr code) || !(pyTruthyStr state)) = true := by
    rcases hmiss with rfl | rfl
    · simp [pyTruthyStr]
    · simp [pyTruthyStr]
  simp only [auth_callback]
  rw [if_neg (not_le_of_lt hrate), if_pos hcond]
  exact ⟨rfl, rfl, rfl, rfl, rfl⟩

/-- C7 witness: a fresh client address and a request with no `code`. -/
theorem callback_missing_params_400_witness :
    (auth_callback true [] [] [] "203.0.113.7" 0 none (some "xyz")).status = 400 ∧
    (auth_callback true [] [] [] "203.0.113.7" 0 none (some "xyz")).scheduled = none := by
  have h := callback_missing_params_400 true [] [] [] "203.0.113.7" 0 none (some "xyz")
    (by decide) (Or.inl rfl)
  exact ⟨h.1, h.2.2.1⟩

/-- C8 counterexample: a request that violates the global minimum
inter-request spacing (it arrives at the very instant of the previous request,
`now - last = 0 < MIN_REQUEST_INTERVAL`) is NOT answered with HTTP 429: the
`before_request` hook merely sleeps (here 1.1 s) and the handler then
processes the request normally, returning 200, refuting the claim that a
global-spacing violation receives HTTP 429. -/
theorem global_spacing_not_rejected_cex :
    (100 : ℚ) - 100 < MIN_REQUEST_INTERVAL ∧
    (handle_request 100 true [] [] [] "203.0.113.7" 100
      (some "abc") (some "xyz")).1 = 11/10 ∧
    (handle_request 100 true [] [] [] "203.0.113.7" 100
      (some "abc") (some "xyz")).2.2.status = 200 := by
  refine ⟨by norm_num [MIN_REQUEST_INTERVAL],
    by norm_num [handle_request, apply_global_rate_limit, MIN_REQUEST_INTERVAL],
    by decide⟩

/-- C8 amended: the `/callback` endpoint returns HTTP 429 (with nothing
scheduled) exactly through the per-address quota — 5 or more requests from
the address within the 120-second window; the global minimum inter-request
spacing is enforced not by rejecting but by sleeping: a violating request is
delayed by a positive `MIN_REQUEST_INTERVAL - elapsed + 0.1` seconds and then
processed normally at the delayed time. -/
theorem rate_limiting_amended :
    (∀ (ready : Bool) (po : OAuthRegistry) (pot : OtpRegistry)
        (tracker : CallbackTracker) (ip : String) (now : ℚ)
        (code state : Option String),
      MAX_CALLBACKS ≤ (((tracker.lookup ip).getD []).filter
        (fun ts => now - ts < TIME_WINDOW)).length →
      (auth_callback ready po pot tracker ip now code state).status = 429 ∧
      (auth_callback ready po pot tracker ip now code state).scheduled = none ∧
      (auth_callback ready po pot tracker ip now code state).errorBody =
        some "Too many requests. Please try again later.") ∧
    (∀ last now : ℚ, now - last < MIN_REQUEST_INTERVAL →
      (apply_global_rate_limit last now).1 =
        MIN_REQUEST_INTERVAL - (now - last) + 1/10 ∧
      0 < (apply_global_rate_limit last now).1) ∧
    (∀ (last : ℚ) (ready : Bool) (po : OAuthRegistry) (pot : OtpRegistry)
        (tracker : CallbackTracker) (ip : String) (now : ℚ)
        (code state : Option String),
      handle_request last ready po pot tracker ip now code state =
        ((apply_global_rate_limit last now).1, (apply_global_rate_limit last now).2,
          auth_callback ready po pot tracker ip
            (now + (apply_global_rate_limit last now).1) code state)) := by
  refine ⟨?_, ?_, ?_⟩
  · intro ready po pot tracker ip now code state h
    simp only [auth_callback]
    rw [if_pos h]
    exact ⟨rfl, rfl, rfl⟩
  · intro last now h
    unfold apply_global_rate_limit
    rw [if_pos h]
    refine ⟨rfl, ?_⟩
    have h1 : 0 < MIN_REQUEST_INTERVAL - (now - last) := sub_pos.mpr h
    have h2 : (0 : ℚ) < 1/10 := by norm_num
    linarith
  · intro last ready po pot tracker ip now code state
    rfl

/-- C8 amended witness: five requests from one address within the window give
429, and a zero-gap request gets a positive 1.1 s sleep. -/
theorem rate_limiting_amended_witness :
    (auth_callback true [] [] [("203.0.113.7", [100, 100, 100, 100, 100])]
      "203.0.113.7" 100 (some "abc") (some "xyz")).status = 429 ∧
    0 < (apply_global_rate_limit 100 100).1 := by
  refine ⟨(rate_limiting_amended.1 true [] [] _ "203.0.113.7" 100
      (some "abc") (some "xyz") ?_).1,
    (rate_limiting_amended.2.1 100 100 ?_).2⟩
  · norm_num [List.lookup, List.filter_cons, TIME_WINDOW, MAX_CALLBACKS]
  · norm_num [MIN_REQUEST_INTERVAL]

/-- C9: on a well-formed, non-rate-limited `/callback` request with the bot
ready, the handler schedules the OTP resolution coroutine if and only if some
pending OTP entry's `flow_id` equals the `state` parameter (otherwise it
schedules the OAuth resolution coroutine), and this routing decision is a
non-consuming lookup: both pending registries are returned unchanged — entries
are only removed inside the scheduled resolution coroutines. -/
theorem callback_routing_nonconsuming
    (po : OAuthRegistry) (pot : OtpRegistry) (tracker : CallbackTracker)
    (ip : String) (now : ℚ) (c s : String) (hc : c ≠ "") (hs : s ≠ "")
    (hrate : (((tracker.lookup ip).getD []).filter
      (fun ts => now - ts < TIME_WINDOW)).length < MAX_CALLBACKS) :
    ((auth_callback true po pot tracker ip now (some c) (some s)).scheduled
        = some (Scheduled.otp c s) ↔ ∃ p ∈ pot, p.2.flow_id = s) ∧
    ((¬∃ p ∈ pot, p.2.flow_id = s) →
      (auth_callback true po pot tracker ip now (some c) (some s)).scheduled
        = some (Scheduled.oauth c s)) ∧
    (auth_callback true po pot tracker ip now (some c) (some s)).status = 200 ∧
    (auth_callback true po pot tracker ip now (some c) (some s)).pendingOauth = po ∧
    (auth_callback true po pot tracker ip now (some c) (some s)).pendingOtps = pot := by
  have hcond : (!(pyTruthyStr (some c)) || !(pyTruthyStr (some s))) ≠ true := by
    simp [pyTruthyStr, hc, hs]
  simp only [auth_callback, Option.getD_some]
  rw [if_neg (not_le_of_lt hrate), if_neg hcond, if_pos trivial]
  by_cases hany : pot.any (fun p => p.2.flow_id == s) = true
  · rw [if_pos hany]
    obtain ⟨p, hp, hps⟩ := List.any_eq_true.mp hany
    exact ⟨⟨fun _ => ⟨p, hp, beq_iff_eq.mp hps⟩, fun _ => rfl⟩,
      fun hne => absurd ⟨p, hp, beq_iff_eq.mp hps⟩ hne, rfl, rfl, rfl⟩
  · rw [if_neg hany]
    refine ⟨⟨fun h => absurd h (by simp), fun hex => ?_⟩, fun _ => rfl, rfl, rfl, rfl⟩
    obtain ⟨p, hp, hps⟩ := hex
    exact (hany (List.any_eq_true.mpr ⟨p, hp, by simp [hps]⟩)).elim

/-- C9 witness: one pending OTP flow "F"; state "F" routes to the OTP
coroutine and the registries are returned unchanged. -/
theorem callback_routing_nonconsuming_witness :
    ((auth_callback true [("T", 42)]
        [(7, { user_id := 7, nickname := "Bob", email := "bob@example.com",
               flow_id := "F", created_at := 0 })] [] "203.0.113.7" 0
        (some "abc") (some "F")).scheduled = some (Scheduled.otp "abc" "F") ↔
      ∃ p ∈ [(7, { user_id := 7, nickname := "Bob", email := "bob@example.com",
                   flow_id := "F", created_at := 0 : OtpEntry })],
        p.2.flow_id = "F") ∧
    (auth_callback true [("T", 42)]
        [(7, { user_id := 7, nickname := "Bob", email := "bob@example.com",
               flow_id := "F", created_at := 0 })] [] "203.0.113.7" 0
        (some "abc") (some "F")).pendingOtps =
      [(7, { user_id := 7, nickname := "Bob", email := "bob@example.com",
             flow_id := "F", created_at := 0 })] := by
  have h := callback_routing_nonconsuming [("T", 42)]
    [(7, { user_id := 7, nickname := "Bob", email := "bob@example.com",
           flow_id := "F", created_at := 0 })] [] "203.0.113.7" 0 "abc" "F"
    (by decide) (by decide) (by decide)
  exact ⟨h.1, h.2.2.2.2⟩

/-- C10: `pending_otps` is keyed by Discord user id, so it holds at most one
entry per user: starting a second OTP verification for the same user (flow F2)
overwrites the first entry (flow F1) in place — the registry keys stay
duplicate-free and the user's entry now carries F2.  A callback presenting
state F1 then matches no pending entry and `verify_otp_redirect` returns
`False` without a token exchange and without touching the registry, while
state F2 still resolves successfully (given an error-free provider response),
updating roles for that user. -/
theorem otp_registry_overwrite
    (pending0 : OtpRegistry) (uid : Nat) (n1 e1 F1 n2 e2 F2 : String)
    (t1 t2 : ℚ) (decode : ClaimsDecoder) (graph : GraphLookup) (resp : TokenJson)
    (herr : resp.error = none)
    (hkeys : (pending0.map Prod.fst).Nodup)
    (hF1 : ∀ p ∈ pending0, p.2.flow_id ≠ F1)
    (hF2 : ∀ p ∈ pending0, p.2.flow_id ≠ F2)
    (hne : F1 ≠ F2) (code1 code2 : String) :
    ((start_otp_verification (start_otp_verification pending0 uid n1 e1 F1 t1)
        uid n2 e2 F2 t2).map Prod.fst).Nodup ∧
    (start_otp_verification (start_otp_verification pending0 uid n1 e1 F1 t1)
        uid n2 e2 F2 t2).lookup uid =
      some { user_id := uid, nickname := n2, email := e2, flow_id := F2,
             created_at := t2 } ∧
    (verify_otp_redirect decode graph resp
      (start_otp_verification (start_otp_verification pending0 uid n1 e1 F1 t1)
        uid n2 e2 F2 t2) code1 F1).retval = false ∧
    (verify_otp_redirect decode graph resp
      (start_otp_verification (start_otp_verification pending0 uid n1 e1 F1 t1)
        uid n2 e2 F2 t2) code1 F1).exchanged = false ∧
    (verify_otp_redirect decode graph resp
      (start_otp_verification (start_otp_verification pending0 uid n1 e1 F1 t1)
        uid n2 e2 F2 t2) code1 F1).pendingOtps =
      start_otp_verification (start_otp_verification pending0 uid n1 e1 F1 t1)
        uid n2 e2 F2 t2 ∧
    (verify_otp_redirect decode graph resp
      (start_otp_verification (start_otp_verification pending0 uid n1 e1 F1 t1)
        uid n2 e2 F2 t2) code2 F2).retval = true ∧
    (verify_otp_redirect decode graph resp
      (start_otp_verification (start_otp_verification pending0 uid n1 e1 F1 t1)
        uid n2 e2 F2 t2) code2 F2).rolesUpdated = some uid := by
  have hmem2 : ∀ x, x ∈ start_otp_verification
      (start_otp_verification pending0 uid n1 e1 F1 t1) uid n2 e2 F2 t2 →
      x = (uid, { user_id := uid, nickname := n2, email := e2, flow_id := F2,
                  created_at := t2 }) ∨ (x ∈ pending0 ∧ x.1 ≠ uid) := by
    intro x hx
    rcases (mem_dictSet _ _ _ _).mp hx with h | ⟨hx1, hxk⟩
    · exact Or.inl h
    · rcases (mem_dictSet _ _ _ _).mp hx1 with h | ⟨hx0, _⟩
      · exact absurd (by rw [h]) hxk
      · exact Or.inr ⟨hx0, hxk⟩
  have hfind1 : findOtpByState (start_otp_verification
      (start_otp_verification pending0 uid n1 e1 F1 t1) uid n2 e2 F2 t2) F1 = none := by
    apply List.find?_eq_none.mpr
    intro x hx hpred
    rcases hmem2 x hx with rfl | ⟨hx0, _⟩
    · exact hne (beq_iff_eq.mp hpred).symm
    · exact hF1 x hx0 (beq_iff_eq.mp hpred)
  have hfind2 : findOtpByState (start_otp_verification
      (start_otp_verification pending0 uid n1 e1 F1 t1) uid n2 e2 F2 t2) F2 =
      some (uid, { user_id := uid, nickname := n2, email := e2, flow_id := F2,
                   created_at := t2 }) := by
    apply find?_unique
    · exact (mem_dictSet _ _ _ _).mpr (Or.inl rfl)
    · simp
    · intro y hy hp
      rcases hmem2 y hy with rfl | ⟨hy0, _⟩
      · rfl
      · exact absurd (beq_iff_eq.mp hp) (hF2 y hy0)
  have hv1 := verify_otp_redirect_notfound decode graph resp _ code1 F1 hfind1
  have hv2 := verify_otp_redirect_found decode graph resp _ code2 F2 uid _ hfind2
  rw [herr] at hv2
  simp only [Option.isSome_none, Bool.false_eq_true, if_false] at hv2
  refine ⟨keys_dictSet_nodup _ _ _ (keys_dictSet_nodup _ _ _ hkeys),
    lookup_dictSet_self _ _ _, ?_, ?_, ?_, ?_, ?_⟩
  · rw [hv1]
  · rw [hv1]
  · rw [hv1]
  · rw [hv2]
  · rw [hv2]

/-- C10 witness: user 7 starts flow "F1" and then flow "F2"; "F1" is rejected
and "F2" resolves. -/
theorem otp_registry_overwrite_witness :
    (verify_otp_redirect (fun _ => none) (fun _ => none)
      { error := none, error_description := none,
        access_token := none, id_token := none }
      (start_otp_verification (start_otp_verification [] 7 "Bob" "bob@example.com" "F1" 0)
        7 "Bob" "bob@example.com" "F2" 1) "abc" "F1").retval = false ∧
    (verify_otp_redirect (fun _ => none) (fun _ => none)
      { error := none, error_description := none,
        access_token := none, id_token := none }
      (start_otp_verification (start_otp_verification [] 7 "Bob" "bob@example.com" "F1" 0)
        7 "Bob" "bob@example.com" "F2" 1) "abc" "F2").retval = true := by
  have h := otp_registry_overwrite [] 7 "Bob" "bob@example.com" "F1"
    "Bob" "bob@example.com" "F2" 0 1 (fun _ => none) (fun _ => none)
    { error := none, error_description := none,
      access_token := none, id_token := none }
    rfl (by decide) (by decide) (by decide) (by decide) "abc" "abc"
  exact ⟨h.2.2.1, h.2.2.2.2.2.1⟩

/-- C7 counterexample: a request with a missing `code` parameter coming from
an address that already made five requests inside the 120-second window is
answered with HTTP 429 by the rate-limit check, which runs before parameter
validation — not with the HTTP 400 the claim promises for every request with
a missing parameter. -/
theorem missing_params_rate_limited_429_cex :
    (auth_callback true [] [] [("203.0.113.9", [0, 0, 0, 0, 0])] "203.0.113.9" 0
      none (some "xyz")).status = 429 ∧
    ¬((auth_callback true [] [] [("203.0.113.9", [0, 0, 0, 0, 0])] "203.0.113.9" 0
      none (some "xyz")).status = 400) := by
  norm_num [auth_callback, List.lookup, List.filter_cons, TIME_WINDOW, MAX_CALLBACKS]
